import Mathlib

/-!
Shallow embedding of the korifi repository layer (org / space / service
binding repositories) and proofs about it.

The cluster and its collaborators (privileged client, user client factory,
namespace-permission evaluator, namespace retriever) are modelled as explicit
state records; every fallible collaborator call is represented by a field of
the state holding the result that call would return.  K8s maps are modelled
as association lists; Go map indexing (zero value on a missing key) and
two-result lookup (`v, ok := m[k]`) are modelled explicitly.
-/

namespace Korifi

/-- Resource type constants, from the source. -/
def OrgResourceType : String := "Org"

def SpaceResourceType : String := "Space"

def ServiceBindingResourceType : String := "Service Binding"

def OrgNameLabel : String := "cloudfoundry.org/org-name"

def SpaceNameLabel : String := "cloudfoundry.org/space-name"

def hierarchyMetadataName : String := "hierarchy"

/-- An error returned by a raw cluster (k8s) call. -/
inductive K8sErr where
  | notFound : K8sErr
  | forbidden : K8sErr
  | other : String → K8sErr
deriving DecidableEq

/-- The repository-boundary error taxonomy. -/
inductive RepoErr where
  | notFound : String → RepoErr
  | forbidden : String → RepoErr
  | transport : String → RepoErr
  | validation : String → RepoErr
  | convergenceTimeout : Nat → RepoErr
  | permissionTimeout : Nat → RepoErr
  | wrapped : String → RepoErr → RepoErr
deriving DecidableEq

/-- Modelled from the spec: the apierrors translation of raw cluster errors
into the repository taxonomy ("All cluster-call failures are translated into
this taxonomy at the repository boundary"; "NotFound with resourceType";
"generic wrapped transport errors").  The apierrors package itself is not
among the provided sources. -/
def FromK8sError (e : K8sErr) (resourceType : String) : RepoErr :=
  match e with
  | K8sErr.notFound => RepoErr.notFound resourceType
  | K8sErr.forbidden => RepoErr.forbidden resourceType
  | K8sErr.other msg => RepoErr.transport msg

/-- Modelled from the spec: "Forbidden-masked-as-NotFound (lookups never
distinguish the two)" — a Forbidden error is converted into NotFound for the
same resource type, every other error passes through.  The apierrors package
itself is not among the provided sources. -/
def ForbiddenAsNotFound (e : RepoErr) : RepoErr :=
  match e with
  | RepoErr.forbidden rt => RepoErr.notFound rt
  | e => e

/-- Modelled from the spec: the shared matchesFilter helper (its definition is
not among the provided sources, only its call sites are): "empty filter
matches all, non-empty is a membership test". -/
def matchesFilter (value : String) (filter : List String) : Bool :=
  filter.isEmpty || filter.contains value

/-- Go `v, ok := m[k]`: the key-presence test on a map snapshot. -/
def mapHasKey (m : List (String × Bool)) (k : String) : Bool :=
  (m.lookup k).isSome

/-- Go `m[k]` on a map[string]bool: the value, or false when absent. -/
def mapValue (m : List (String × Bool)) (k : String) : Bool :=
  (m.lookup k).getD false

/-- Go `toMap` builds a set from a slice; as membership and emptiness are all
it is used for, it is modelled as deduplication of the list. -/
def toMap (elements : List String) : List String :=
  elements.dedup

/-- Go `matchFilter(filter map[string]struct, value)`: an empty filter matches
everything, otherwise it is a membership test. -/
def matchFilter (filter : List String) (value : String) : Bool :=
  filter.isEmpty || filter.contains value

/-! ## Service binding repository -/

/-- The CFServiceBinding cluster object (the fields the repository reads). -/
structure CFServiceBinding where
  name : String
  ns : String
  bindingName : Option String
  serviceName : String
  appName : String
  createdAt : String
  updatedAt : String
deriving DecidableEq

instance (ε α : Type) [DecidableEq ε] [DecidableEq α] : DecidableEq (Except ε α) := fun x y =>
  match x, y with
  | Except.error a, Except.error b =>
    if h : a = b then Decidable.isTrue (h ▸ rfl)
    else Decidable.isFalse (fun hc => h (Except.error.inj hc))
  | Except.error _, Except.ok _ => Decidable.isFalse (fun hc => Except.noConfusion hc)
  | Except.ok _, Except.error _ => Decidable.isFalse (fun hc => Except.noConfusion hc)
  | Except.ok a, Except.ok b =>
    if h : a = b then Decidable.isTrue (h ▸ rfl)
    else Decidable.isFalse (fun hc => h (Except.ok.inj hc))

/-- The record returned over the repository boundary. -/
structure ServiceBindingRecord where
  GUID : String
  bindingType : String
  Name : Option String
  AppGUID : String
  ServiceInstanceGUID : String
  SpaceGUID : String
  CreatedAt : String
  UpdatedAt : String
deriving DecidableEq

/-- cfServiceBindingToRecord, from the source (the LastOperation summary is a
constant create/succeeded block and is omitted from the record model). -/
def cfServiceBindingToRecord (b : CFServiceBinding) : ServiceBindingRecord :=
  { GUID := b.name
    bindingType := "app"
    Name := b.bindingName
    AppGUID := b.appName
    ServiceInstanceGUID := b.serviceName
    SpaceGUID := b.ns
    CreatedAt := b.createdAt
    UpdatedAt := b.updatedAt }

def toServiceBindingRecords (bs : List CFServiceBinding) : List ServiceBindingRecord :=
  bs.map cfServiceBindingToRecord

structure ListServiceBindingsMessage where
  AppGUIDs : List String
  ServiceInstanceGUIDs : List String
deriving DecidableEq

/-- applyServiceBindingListFilter, from the source. -/
def applyServiceBindingListFilter (serviceBindingList : List CFServiceBinding)
    (message : ListServiceBindingsMessage) : List CFServiceBinding :=
  serviceBindingList.filter (fun b =>
    matchesFilter b.serviceName message.ServiceInstanceGUIDs &&
    matchesFilter b.appName message.AppGUIDs)

/-- The cluster/collaborator state a service-binding repository call sees. -/
structure BindingEnv where
  /-- result of userClientFactory.BuildClient -/
  buildClientErr : Option RepoErr
  /-- result of namespacePermissions.GetAuthorizedSpaceNamespaces -/
  authorizedSpaceNs : Except RepoErr (List (String × Bool))
  /-- result of namespaceRetriever.NamespaceFor -/
  namespaceForResult : Except RepoErr String
  /-- result of userClient.Get on the binding in its resolved namespace -/
  getResult : Except K8sErr CFServiceBinding
  /-- result of userClient.Delete on the fetched binding -/
  deleteErr : Option K8sErr
  /-- every CFServiceBinding in the cluster -/
  bindings : List CFServiceBinding
  /-- namespaces where userClient.List answers Forbidden -/
  forbiddenNs : List String
  /-- namespaces where userClient.List fails with some other error -/
  failedNs : List (String × K8sErr)
deriving DecidableEq

/-- DeleteServiceBinding, from the source: build client, resolve namespace,
fetch (any fetch failure passes through ForbiddenAsNotFound), delete. -/
def DeleteServiceBinding (env : BindingEnv) (guid : String) : Except RepoErr Unit :=
  match env.buildClientErr with
  | some e => Except.error (RepoErr.wrapped "failed to build user client" e)
  | none =>
    match env.namespaceForResult with
    | Except.error e => Except.error e
    | Except.ok _ =>
      match env.getResult with
      | Except.error e =>
        Except.error (ForbiddenAsNotFound (FromK8sError e ServiceBindingResourceType))
      | Except.ok _ =>
        match env.deleteErr with
        | some e => Except.error (FromK8sError e ServiceBindingResourceType)
        | none => Except.ok ()

/-- ServiceBindingExists, from the source: list the bindings of the space
namespace and scan for a matching (app, instance) pair. -/
def ServiceBindingExists (env : BindingEnv) (spaceGUID appGUID serviceInstanceGUID : String) :
    Except RepoErr Bool :=
  match env.buildClientErr with
  | some e => Except.error (RepoErr.wrapped "failed to build user client" e)
  | none =>
    if env.forbiddenNs.contains spaceGUID then
      Except.error (FromK8sError K8sErr.forbidden ServiceBindingResourceType)
    else
      match env.failedNs.lookup spaceGUID with
      | some e => Except.error (FromK8sError e ServiceBindingResourceType)
      | none =>
        Except.ok ((env.bindings.filter (fun b => b.ns == spaceGUID)).any
          (fun b => b.appName == appGUID && b.serviceName == serviceInstanceGUID))

/-- The per-namespace listing loop of ListServiceBindings, from the source: a
Forbidden list response skips the namespace, any other list error fails the
whole call, otherwise the namespace's filtered bindings are appended. -/
def listServiceBindingsInNs (env : BindingEnv) (message : ListServiceBindingsMessage) :
    List String → Except RepoErr (List CFServiceBinding)
  | [] => Except.ok []
  | ns :: rest =>
    if env.forbiddenNs.contains ns then
      listServiceBindingsInNs env message rest
    else
      match env.failedNs.lookup ns with
      | some e =>
        Except.error (RepoErr.wrapped
          ("failed to list service instances in namespace " ++ ns)
          (FromK8sError e ServiceBindingResourceType))
      | none =>
        match listServiceBindingsInNs env message rest with
        | Except.error e => Except.error e
        | Except.ok acc =>
          Except.ok
            (applyServiceBindingListFilter
              (env.bindings.filter (fun b => b.ns == ns)) message ++ acc)

/-- ListServiceBindings, from the source: get the caller's authorized space
namespace map, build the user client, then iterate over the map's keys. -/
def ListServiceBindings (env : BindingEnv) (message : ListServiceBindingsMessage) :
    Except RepoErr (List ServiceBindingRecord) :=
  match env.authorizedSpaceNs with
  | Except.error e =>
    Except.error (RepoErr.wrapped "failed to list namespaces for spaces with user role bindings" e)
  | Except.ok nsList =>
    match env.buildClientErr with
    | some e => Except.error (RepoErr.wrapped "failed to build user client" e)
    | none =>
      match listServiceBindingsInNs env message (nsList.map Prod.fst) with
      | Except.error e => Except.error e
      | Except.ok bs => Except.ok (toServiceBindingRecords bs)

/-! ## Org / space repository: data model -/

/-- Convergence state of a subnamespace anchor (v1alpha2 constants). -/
inductive AnchorState where
  | Pending : AnchorState
  | Ok : AnchorState
  | Missing : AnchorState
  | Conflict : AnchorState
deriving DecidableEq

/-- A SubnamespaceAnchor cluster object (the fields the repository reads). -/
structure SubnamespaceAnchor where
  name : String
  ns : String
  labels : List (String × String)
  state : AnchorState
  creationTimestamp : Nat
deriving DecidableEq

/-- Go `anchor.Labels[key]`: map indexing with "" as the zero value. -/
def lookupLabel (a : SubnamespaceAnchor) (key : String) : String :=
  (a.labels.lookup key).getD ""

/-- A CFOrg custom resource (the fields the repository reads); `conditions`
maps condition types to condition statuses. -/
structure CFOrg where
  name : String
  ns : String
  specName : String
  conditions : List (String × String)
  creationTimestamp : Nat
deriving DecidableEq

/-- meta.IsStatusConditionTrue: the condition with the given type exists and
its status is "True". -/
def IsStatusConditionTrue (conditions : List (String × String)) (condType : String) : Bool :=
  (conditions.lookup condType).getD "" == "True"

structure OrgRecord where
  Name : String
  GUID : String
  Suspended : Bool
  Labels : List (String × String)
  Annotations : List (String × String)
  CreatedAt : Nat
  UpdatedAt : Nat
deriving DecidableEq

structure SpaceRecord where
  Name : String
  GUID : String
  OrganizationGUID : String
  Labels : List (String × String)
  Annotations : List (String × String)
  CreatedAt : Nat
  UpdatedAt : Nat
deriving DecidableEq

structure ListOrgsMessage where
  Names : List String
  GUIDs : List String
deriving DecidableEq

structure ListSpacesMessage where
  Names : List String
  GUIDs : List String
  OrganizationGUIDs : List String
deriving DecidableEq

structure CreateSpaceMessage where
  Name : String
  OrganizationGUID : String
  ImageRegistryCredentials : String
deriving DecidableEq

structure DeleteOrgMessage where
  GUID : String
deriving DecidableEq

structure DeleteSpaceMessage where
  GUID : String
  OrganizationGUID : String
deriving DecidableEq

/-- The cluster/collaborator state an org-repository read call sees. -/
structure OrgRepoState where
  rootNamespace : String
  timeoutMs : Nat
  /-- every SubnamespaceAnchor in the cluster -/
  anchors : List SubnamespaceAnchor
  /-- every CFOrg custom resource in the cluster -/
  cfOrgs : List CFOrg
  /-- namespaces holding a "hierarchy" HierarchyConfiguration object -/
  hierarchyConfigs : List String
  /-- error returned by privilegedClient.List, when it fails -/
  listErr : Option K8sErr
  /-- result of nsPerms.GetAuthorizedOrgNamespaces -/
  orgPermsResult : Except RepoErr (List (String × Bool))
  /-- result of nsPerms.GetAuthorizedSpaceNamespaces -/
  spacePermsResult : Except RepoErr (List (String × Bool))
deriving DecidableEq

/-- The `in`-style label selector ListOrgs adds when filter.Names is
non-empty: the org-name label must exist and its value be one of the names.
With an empty filter no selector is added and everything is kept. -/
def orgNameSelector (names : List String) (a : SubnamespaceAnchor) : Bool :=
  names.isEmpty ||
    (match a.labels.lookup OrgNameLabel with
     | some v => names.contains v
     | none => false)

def anchorToOrgRecord (a : SubnamespaceAnchor) : OrgRecord :=
  { Name := lookupLabel a OrgNameLabel
    GUID := a.name
    Suspended := false
    Labels := []
    Annotations := []
    CreatedAt := a.creationTimestamp
    UpdatedAt := a.creationTimestamp }

def anchorToSpaceRecord (a : SubnamespaceAnchor) : SpaceRecord :=
  { Name := lookupLabel a SpaceNameLabel
    GUID := a.name
    OrganizationGUID := a.ns
    Labels := []
    Annotations := []
    CreatedAt := a.creationTimestamp
    UpdatedAt := a.creationTimestamp }

def cfOrgToOrgRecord (o : CFOrg) : OrgRecord :=
  { Name := o.specName
    GUID := o.name
    Suspended := false
    Labels := []
    Annotations := []
    CreatedAt := o.creationTimestamp
    UpdatedAt := o.creationTimestamp }

/-! ## Org / space repository: list and get -/

/-- ListOrgs, anchor variant, from the source: list the anchors of the root
namespace (a name-label selector is pushed to the cluster when filter.Names
is non-empty), keep Ok-state anchors passing the guid filter, then keep only
records whose GUID maps to true in the caller's authorized org namespaces. -/
def ListOrgs (s : OrgRepoState) (filter : ListOrgsMessage) : Except RepoErr (List OrgRecord) :=
  match s.listErr with
  | some e => Except.error (FromK8sError e OrgResourceType)
  | none =>
    let listed := s.anchors.filter (fun a =>
      a.ns == s.rootNamespace && orgNameSelector filter.Names a)
    let records := (listed.filter (fun a =>
      a.state == AnchorState.Ok && matchFilter (toMap filter.GUIDs) a.name)).map anchorToOrgRecord
    match s.orgPermsResult with
    | Except.error e => Except.error e
    | Except.ok m => Except.ok (records.filter (fun o => mapValue m o.GUID))

/-- ListOrgs, CFOrg variant, from the source: list the CFOrgs of the root
namespace, keep those whose Ready condition is true and that pass the guid
and name filters, then the same authorization intersection. -/
def ListOrgsCR (s : OrgRepoState) (filter : ListOrgsMessage) : Except RepoErr (List OrgRecord) :=
  match s.listErr with
  | some e => Except.error (FromK8sError e OrgResourceType)
  | none =>
    let listed := s.cfOrgs.filter (fun o => o.ns == s.rootNamespace)
    let records := (listed.filter (fun o =>
      IsStatusConditionTrue o.conditions "Ready" &&
      matchesFilter o.name filter.GUIDs && matchesFilter o.specName filter.Names)).map cfOrgToOrgRecord
    match s.orgPermsResult with
    | Except.error e => Except.error e
    | Except.ok m => Except.ok (records.filter (fun o => mapValue m o.GUID))

/-- GetOrg, anchor variant, from the source: ListOrgs with a singleton guid
filter; an empty result is a NotFound for resource type Org. -/
def GetOrg (s : OrgRepoState) (orgGUID : String) : Except RepoErr OrgRecord :=
  match ListOrgs s { Names := [], GUIDs := [orgGUID] } with
  | Except.error e => Except.error e
  | Except.ok records =>
    match records with
    | [] => Except.error (RepoErr.notFound OrgResourceType)
    | r :: _ => Except.ok r

/-- GetOrg, CFOrg variant, from the source. -/
def GetOrgCR (s : OrgRepoState) (orgGUID : String) : Except RepoErr OrgRecord :=
  match ListOrgsCR s { Names := [], GUIDs := [orgGUID] } with
  | Except.error e => Except.error e
  | Except.ok records =>
    match records with
    | [] => Except.error (RepoErr.notFound OrgResourceType)
    | r :: _ => Except.ok r

/-- ListSpaces, from the source (identical in both provided variants): pass 1
collects the names of anchors directly under the root namespace passing the
org-guid filter (no state check); pass 2 keeps Ok-state anchors passing the
name and guid filters whose parent namespace was collected; finally only
records whose GUID maps to true in the caller's authorized space namespaces
are kept. -/
def ListSpaces (s : OrgRepoState) (message : ListSpacesMessage) :
    Except RepoErr (List SpaceRecord) :=
  match s.listErr with
  | some e => Except.error (FromK8sError e SpaceResourceType)
  | none =>
    let orgUIDs := (s.anchors.filter (fun a =>
      a.ns == s.rootNamespace && matchFilter (toMap message.OrganizationGUIDs) a.name)).map
        (fun a => a.name)
    let records := (s.anchors.filter (fun a =>
      a.state == AnchorState.Ok &&
      matchFilter (toMap message.Names) (lookupLabel a SpaceNameLabel) &&
      matchFilter (toMap message.GUIDs) a.name &&
      orgUIDs.contains a.ns)).map anchorToSpaceRecord
    match s.spacePermsResult with
    | Except.error e => Except.error e
    | Except.ok m => Except.ok (records.filter (fun r => mapValue m r.GUID))

/-- GetSpace, from the source: ListSpaces with a singleton guid filter; an
empty result is a NotFound for resource type Space. -/
def GetSpace (s : OrgRepoState) (spaceGUID : String) : Except RepoErr SpaceRecord :=
  match ListSpaces s { Names := [], GUIDs := [spaceGUID], OrganizationGUIDs := [] } with
  | Except.error e => Except.error e
  | Except.ok records =>
    match records with
    | [] => Except.error (RepoErr.notFound SpaceResourceType)
    | r :: _ => Except.ok r

/-! ## Provisioning wait protocol -/

/-- A write request issued to the cluster during a repository call. -/
inductive ClusterAction where
  | createAnchor : String → String → ClusterAction
  | deleteAnchor : String → String → ClusterAction
  | getHierarchy : String → ClusterAction
  | patchHierarchy : String → ClusterAction
  | createServiceAccount : String → String → ClusterAction
deriving DecidableEq

def ClusterAction.isDelete : ClusterAction → Bool
  | ClusterAction.deleteAnchor _ _ => true
  | _ => false

/-- A snapshot emitted on the anchor watch channel: either a decodable
SubnamespaceAnchor or some other object (skipped by the consumer). -/
inductive AnchorWatchEvent where
  | anchorEvent : SubnamespaceAnchor → AnchorWatchEvent
  | otherEvent : AnchorWatchEvent
deriving DecidableEq

/-- The watch-consumption loop, from the source: skip undecodable snapshots,
stop at the first anchor whose state is Ok; channel closure (modelled as the
end of the event list, i.e. the structural-convergence deadline) leaves the
loop without an Ok anchor. -/
def findOkAnchor : List AnchorWatchEvent → Option SubnamespaceAnchor
  | [] => none
  | AnchorWatchEvent.anchorEvent a :: rest =>
    if a.state == AnchorState.Ok then some a else findOkAnchor rest
  | AnchorWatchEvent.otherEvent :: rest => findOkAnchor rest

/-- A snapshot emitted on the CFOrg watch channel. -/
inductive OrgWatchEvent where
  | orgEvent : CFOrg → OrgWatchEvent
  | otherEvent : OrgWatchEvent
deriving DecidableEq

/-- The CFOrg watch-consumption loop, from the source: stop at the first
CFOrg whose Ready condition is true. -/
def findReadyOrg : List OrgWatchEvent → Option CFOrg
  | [] => none
  | OrgWatchEvent.orgEvent o :: rest =>
    if IsStatusConditionTrue o.conditions "Ready" then some o else findReadyOrg rest
  | OrgWatchEvent.otherEvent :: rest => findReadyOrg rest

/-- The permission-propagation polling loop, from the source: each element of
`polls` is the result of one NamespacePermissions query (taken every 500 ms);
exhaustion of the list is the deadline firing, reported with the elapsed
time; the loop stops as soon as the namespace name is PRESENT AS A KEY in
the returned map, regardless of the mapped value. -/
def permissionWait (name : String) (elapsedMs : Nat) :
    List (Except RepoErr (List (String × Bool))) → Except RepoErr Unit
  | [] => Except.error (RepoErr.permissionTimeout elapsedMs)
  | Except.error e :: _ => Except.error e
  | Except.ok m :: rest =>
    if mapHasKey m name then Except.ok () else permissionWait name (elapsedMs + 500) rest

/-- The per-call collaborator results a provisioning call consumes. -/
structure ProvisionEnv where
  /-- error from userClient.Create of the anchor / CFOrg -/
  createErr : Option K8sErr
  /-- error from privilegedClient.Watch setup -/
  watchSetupErr : Option K8sErr
  /-- snapshots delivered on the anchor watch before the deadline -/
  anchorEvents : List AnchorWatchEvent
  /-- snapshots delivered on the CFOrg watch before the deadline -/
  orgEvents : List OrgWatchEvent
  /-- successive GetAuthorizedOrgNamespaces results before the deadline -/
  orgPermPolls : List (Except RepoErr (List (String × Bool)))
  /-- successive GetAuthorizedSpaceNamespaces results before the deadline -/
  spacePermPolls : List (Except RepoErr (List (String × Bool)))
deriving DecidableEq

/-- The Go branch on resourceType inside the permission-polling loop: org
creations query the authorized org namespaces, others the space ones. -/
def selectedPermPolls (env : ProvisionEnv) (resourceType : String) :
    List (Except RepoErr (List (String × Bool))) :=
  if resourceType == OrgResourceType then env.orgPermPolls else env.spacePermPolls

/-- createSubnamespaceAnchor, from the source: create the anchor as the
caller, watch until its state is Ok (else ConvergenceTimeout reporting the
timeout period), then poll the caller's authorized namespaces (org ones for
resource type Org, space ones otherwise) until the new name appears as a key
(else PermissionPropagationTimeout reporting elapsed time).  The second
component is the list of cluster write requests issued. -/
def createSubnamespaceAnchor (s : OrgRepoState) (env : ProvisionEnv)
    (anchor : SubnamespaceAnchor) (resourceType : String) :
    Except RepoErr SubnamespaceAnchor × List ClusterAction :=
  let log := [ClusterAction.createAnchor anchor.ns anchor.name]
  match env.createErr with
  | some e =>
    (Except.error (RepoErr.wrapped "failed to create subnamespaceanchor"
      (FromK8sError e resourceType)), log)
  | none =>
    match env.watchSetupErr with
    | some e =>
      (Except.error (RepoErr.wrapped "failed to set up watch on subnamespaceanchors"
        (FromK8sError e resourceType)), log)
    | none =>
      match findOkAnchor env.anchorEvents with
      | none => (Except.error (RepoErr.convergenceTimeout s.timeoutMs), log)
      | some createdAnchor =>
        match permissionWait anchor.name 0 (selectedPermPolls env resourceType) with
        | Except.error e => (Except.error e, log)
        | Except.ok _ => (Except.ok createdAnchor, log)

/-- createOrgCR, from the source: the CFOrg-variant provisioning wait — the
structural condition is the Ready condition instead of the anchor Ok state,
the permission poll always queries the authorized org namespaces. -/
def createOrgCR (s : OrgRepoState) (env : ProvisionEnv) (org : CFOrg) :
    Except RepoErr CFOrg × List ClusterAction :=
  let log := [ClusterAction.createAnchor org.ns org.name]
  match env.createErr with
  | some e =>
    (Except.error (RepoErr.wrapped "failed to create cf org"
      (FromK8sError e OrgResourceType)), log)
  | none =>
    match env.watchSetupErr with
    | some e =>
      (Except.error (RepoErr.wrapped "failed to set up watch on cf org"
        (FromK8sError e OrgResourceType)), log)
    | none =>
      match findReadyOrg env.orgEvents with
      | none => (Except.error (RepoErr.convergenceTimeout s.timeoutMs), log)
      | some createdOrg =>
        match permissionWait org.name 0 env.orgPermPolls with
        | Except.error e => (Except.error e, log)
        | Except.ok _ => (Except.ok createdOrg, log)

/-! ## CreateSpace, DeleteOrg, DeleteSpace -/

/-- Modelled from the spec: "admission rejection surfaces as a Validation
error carrying the admission message" — the webhooks translation recognises a
validation cause anywhere in the wrap chain (the webhooks package is not
among the provided sources). -/
def WebhookErrorToValidationError : RepoErr → Option String
  | RepoErr.validation msg => some msg
  | RepoErr.wrapped _ inner => WebhookErrorToValidationError inner
  | _ => none

/-- The extra collaborator results a CreateSpace call consumes. -/
structure CreateSpaceEnv where
  buildClientErr : Option RepoErr
  anchorEnv : ProvisionEnv
  /-- error from privilegedClient.Create of the kpack service account -/
  kpackCreateErr : Option K8sErr
  /-- error from privilegedClient.Create of the eirini service account -/
  eiriniCreateErr : Option K8sErr
deriving DecidableEq

/-- The shared tail of CreateSpace after the parent-organization fetch, from
the source: build the user client, provision the space anchor, translate
webhook rejections, then create the two baseline service accounts. -/
def createSpaceTail (s : OrgRepoState) (env : CreateSpaceEnv)
    (message : CreateSpaceMessage) (uuid : String) :
    Except RepoErr SpaceRecord × List ClusterAction :=
  let spaceGUID := "cf-space-" ++ uuid
  match env.buildClientErr with
  | some e => (Except.error (RepoErr.wrapped "failed to build user client" e), [])
  | none =>
    let anchor : SubnamespaceAnchor :=
      { name := spaceGUID
        ns := message.OrganizationGUID
        labels := [(SpaceNameLabel, message.Name)]
        state := AnchorState.Pending
        creationTimestamp := 0 }
    match createSubnamespaceAnchor s env.anchorEnv anchor SpaceResourceType with
    | (Except.error e, log) =>
      match WebhookErrorToValidationError e with
      | some msg => (Except.error (RepoErr.validation msg), log)
      | none => (Except.error e, log)
    | (Except.ok createdAnchor, log) =>
      match env.kpackCreateErr with
      | some e =>
        (Except.error (FromK8sError e SpaceResourceType),
         log ++ [ClusterAction.createServiceAccount spaceGUID "kpack-service-account"])
      | none =>
        match env.eiriniCreateErr with
        | some e =>
          (Except.error (FromK8sError e SpaceResourceType),
           log ++ [ClusterAction.createServiceAccount spaceGUID "kpack-service-account",
                   ClusterAction.createServiceAccount spaceGUID "eirini"])
        | none =>
          (Except.ok
            { Name := message.Name
              GUID := createdAnchor.name
              OrganizationGUID := message.OrganizationGUID
              Labels := []
              Annotations := []
              CreatedAt := createdAnchor.creationTimestamp
              UpdatedAt := createdAnchor.creationTimestamp },
           log ++ [ClusterAction.createServiceAccount spaceGUID "kpack-service-account",
                   ClusterAction.createServiceAccount spaceGUID "eirini"])

/-- CreateSpace, anchor-repository variant, from the source: resolve the
parent org via GetOrg under the same caller identity first; a failure wraps
as "failed to get parent organization" and nothing is created. -/
def CreateSpace (s : OrgRepoState) (env : CreateSpaceEnv)
    (message : CreateSpaceMessage) (uuid : String) :
    Except RepoErr SpaceRecord × List ClusterAction :=
  match GetOrg s message.OrganizationGUID with
  | Except.error e =>
    (Except.error (RepoErr.wrapped "failed to get parent organization" e), [])
  | Except.ok _ => createSpaceTail s env message uuid

/-- CreateSpace, CFOrg-repository variant, from the source: identical body
but the parent org is resolved through the CFOrg-variant GetOrg. -/
def CreateSpaceCR (s : OrgRepoState) (env : CreateSpaceEnv)
    (message : CreateSpaceMessage) (uuid : String) :
    Except RepoErr SpaceRecord × List ClusterAction :=
  match GetOrgCR s message.OrganizationGUID with
  | Except.error e =>
    (Except.error (RepoErr.wrapped "failed to get parent organization" e), [])
  | Except.ok _ => createSpaceTail s env message uuid

/-- The collaborator results a delete call consumes. -/
structure DeleteEnv where
  buildClientErr : Option RepoErr
  /-- error from userClient.Delete of the anchor -/
  deleteErr : Option K8sErr
deriving DecidableEq

/-- DeleteOrg, from the source: fetch the "hierarchy" HierarchyConfiguration
of the org namespace with the privileged client (its absence is a k8s
NotFound, translated for resource type Org), then delete the anchor under
the root namespace as the caller's identity. -/
def DeleteOrg (s : OrgRepoState) (env : DeleteEnv) (message : DeleteOrgMessage) :
    Except RepoErr Unit × List ClusterAction :=
  if s.hierarchyConfigs.contains message.GUID then
    match env.buildClientErr with
    | some e =>
      (Except.error (RepoErr.wrapped "failed to build user client" e),
       [ClusterAction.getHierarchy message.GUID])
    | none =>
      let log := [ClusterAction.getHierarchy message.GUID,
                  ClusterAction.deleteAnchor s.rootNamespace message.GUID]
      match env.deleteErr with
      | some e => (Except.error (FromK8sError e OrgResourceType), log)
      | none => (Except.ok (), log)
  else
    (Except.error (FromK8sError K8sErr.notFound OrgResourceType),
     [ClusterAction.getHierarchy message.GUID])

/-- DeleteSpace, from the source: build the user client and delete the
anchor in the org namespace directly — no prior fetch of any kind. -/
def DeleteSpace (s : OrgRepoState) (env : DeleteEnv) (message : DeleteSpaceMessage) :
    Except RepoErr Unit × List ClusterAction :=
  match env.buildClientErr with
  | some e => (Except.error (RepoErr.wrapped "failed to build user client" e), [])
  | none =>
    let log := [ClusterAction.deleteAnchor message.OrganizationGUID message.GUID]
    match env.deleteErr with
    | some e => (Except.error (FromK8sError e SpaceResourceType), log)
    | none => (Except.ok (), log)

/-- The spec's description of DeleteSpace ("same fetch-then-delete pattern as
the organization equivalents": first fetch the hierarchy configuration of
the target namespace, absence reported as NotFound, then delete the anchor as
the caller).  Defined from the spec's words only, to be compared with
`DeleteSpace` as translated from the source. -/
def DeleteSpaceFetchThenDelete (s : OrgRepoState) (env : DeleteEnv)
    (message : DeleteSpaceMessage) : Except RepoErr Unit × List ClusterAction :=
  if s.hierarchyConfigs.contains message.GUID then
    match env.buildClientErr with
    | some e =>
      (Except.error (RepoErr.wrapped "failed to build user client" e),
       [ClusterAction.getHierarchy message.GUID])
    | none =>
      let log := [ClusterAction.getHierarchy message.GUID,
                  ClusterAction.deleteAnchor message.OrganizationGUID message.GUID]
      match env.deleteErr with
      | some e => (Except.error (FromK8sError e SpaceResourceType), log)
      | none => (Except.ok (), log)
  else
    (Except.error (FromK8sError K8sErr.notFound SpaceResourceType),
     [ClusterAction.getHierarchy message.GUID])

/-! ## Shared small lemmas -/

theorem toMap_mem (xs : List String) (v : String) : v ∈ toMap xs ↔ v ∈ xs := by
  simp [toMap, List.mem_dedup]

theorem toMap_eq_nil (xs : List String) : toMap xs = [] ↔ xs = [] := by
  simp [toMap, List.dedup_eq_nil]

theorem matchFilter_iff (filter : List String) (v : String) :
    matchFilter (toMap filter) v = true ↔ (filter = [] ∨ v ∈ filter) := by
  simp [matchFilter, List.isEmpty_iff, toMap_eq_nil, toMap_mem]

theorem matchFilter_empty (v : String) : matchFilter (toMap []) v = true := by
  simp [matchFilter_iff]

theorem matchFilter_singleton (x v : String) :
    matchFilter (toMap [x]) v = true ↔ v = x := by
  simp [matchFilter_iff]

theorem matchesFilter_iff (v : String) (filter : List String) :
    matchesFilter v filter = true ↔ (filter = [] ∨ v ∈ filter) := by
  simp [matchesFilter, List.isEmpty_iff]

/-! ## C6 -/

/-- C6: ServiceBindingExists(spaceGUID, appGUID, instanceGUID) returns true
exactly when some binding listed in the space namespace has both its app
reference equal to appGUID and its service-instance reference equal to
instanceGUID; a binding matching only one of the two never causes a true
result. -/
theorem C6_serviceBindingExists_iff_full_match (env : BindingEnv)
    (spaceGUID appGUID instanceGUID : String)
    (hclient : env.buildClientErr = none)
    (hforb : env.forbiddenNs.contains spaceGUID = false)
    (hfail : env.failedNs.lookup spaceGUID = none) :
    ServiceBindingExists env spaceGUID appGUID instanceGUID = Except.ok true ↔
      ∃ b ∈ env.bindings,
        b.ns = spaceGUID ∧ b.appName = appGUID ∧ b.serviceName = instanceGUID := by
  simp only [ServiceBindingExists, hclient, hforb, hfail, Bool.false_eq_true, if_false,
    Except.ok.injEq, List.any_eq_true, List.mem_filter, Bool.and_eq_true, beq_iff_eq]
  constructor
  · rintro ⟨b, ⟨hb, hns⟩, happ, hsvc⟩
    exact ⟨b, hb, hns, happ, hsvc⟩
  · rintro ⟨b, hb, hns, happ, hsvc⟩
    exact ⟨b, ⟨hb, hns⟩, happ, hsvc⟩

def bindingC6 : CFServiceBinding :=
  { name := "b-1", ns := "cf-space-1", bindingName := none,
    serviceName := "inst-1", appName := "app-1", createdAt := "", updatedAt := "" }

def envC6 : BindingEnv :=
  { buildClientErr := none
    authorizedSpaceNs := Except.ok []
    namespaceForResult := Except.ok ""
    getResult := Except.error K8sErr.notFound
    deleteErr := none
    bindings := [bindingC6]
    forbiddenNs := []
    failedNs := [] }

theorem C6_witness :
    ServiceBindingExists envC6 "cf-space-1" "app-1" "inst-1" = Except.ok true := by
  exact (C6_serviceBindingExists_iff_full_match envC6 "cf-space-1" "app-1" "inst-1"
    rfl rfl rfl).mpr ⟨bindingC6, by simp [envC6], rfl, rfl, rfl⟩

/-! ## C4 -/

/-- C4: when DeleteServiceBinding's fetch of the binding in its resolved
namespace fails — whether truly absent or forbidden — the call returns a
NotFound error for the Service Binding resource type, never a distinct
Forbidden error. -/
theorem C4_delete_binding_fetch_failure_is_notFound (env : BindingEnv) (guid : String)
    (ns : String) (e : K8sErr)
    (hclient : env.buildClientErr = none)
    (hns : env.namespaceForResult = Except.ok ns)
    (hget : env.getResult = Except.error e)
    (he : e = K8sErr.notFound ∨ e = K8sErr.forbidden) :
    DeleteServiceBinding env guid =
        Except.error (RepoErr.notFound ServiceBindingResourceType) ∧
      ∀ rt, DeleteServiceBinding env guid ≠ Except.error (RepoErr.forbidden rt) := by
  have hmain : DeleteServiceBinding env guid =
      Except.error (RepoErr.notFound ServiceBindingResourceType) := by
    rcases he with he | he <;> subst he <;>
      simp [DeleteServiceBinding, hclient, hns, hget, ForbiddenAsNotFound, FromK8sError]
  refine ⟨hmain, ?_⟩
  intro rt hcontra
  rw [hmain] at hcontra
  exact RepoErr.noConfusion (Except.error.inj hcontra)

def envC4 : BindingEnv :=
  { buildClientErr := none
    authorizedSpaceNs := Except.ok []
    namespaceForResult := Except.ok "cf-space-9"
    getResult := Except.error K8sErr.forbidden
    deleteErr := none
    bindings := []
    forbiddenNs := []
    failedNs := [] }

theorem C4_witness :
    DeleteServiceBinding envC4 "b-9" =
      Except.error (RepoErr.notFound ServiceBindingResourceType) :=
  (C4_delete_binding_fetch_failure_is_notFound envC4 "b-9" "cf-space-9" K8sErr.forbidden
    rfl rfl rfl (Or.inr rfl)).1

/-! ## C7 -/

theorem listInNs_ok_of_no_failures (env : BindingEnv) (message : ListServiceBindingsMessage) :
    ∀ keys : List String,
    (∀ ns ∈ keys, env.forbiddenNs.contains ns = true ∨ env.failedNs.lookup ns = none) →
    ∃ bs, listServiceBindingsInNs env message keys = Except.ok bs ∧
      ∀ b ∈ bs, matchesFilter b.serviceName message.ServiceInstanceGUIDs = true ∧
        matchesFilter b.appName message.AppGUIDs = true ∧
        b.ns ∈ keys ∧ env.forbiddenNs.contains b.ns = false := by
  intro keys
  induction keys with
  | nil => intro _; exact ⟨[], rfl, by simp⟩
  | cons ns rest ih =>
    intro h
    obtain ⟨bs, hbs, hprop⟩ := ih (fun x hx => h x (List.mem_cons_of_mem ns hx))
    by_cases hf : env.forbiddenNs.contains ns = true
    · have hf2 : ns ∈ env.forbiddenNs := by simpa using hf
      refine ⟨bs, ?_, ?_⟩
      · simp [listServiceBindingsInNs, hf2, hbs]
      · intro b hb
        obtain ⟨h1, h2, h3, h4⟩ := hprop b hb
        exact ⟨h1, h2, List.mem_cons_of_mem ns h3, h4⟩
    · have hf2 : ns ∉ env.forbiddenNs := by simpa using hf
      have hlk : env.failedNs.lookup ns = none := by
        rcases h ns (List.mem_cons_self ns rest) with hc | hc
        · exact absurd hc hf
        · exact hc
      refine ⟨applyServiceBindingListFilter
          (env.bindings.filter (fun b => b.ns == ns)) message ++ bs, ?_, ?_⟩
      · simp [listServiceBindingsInNs, hf2, hlk, hbs]
      · intro b hb
        rcases List.mem_append.mp hb with hb | hb
        · have hmem := hb
          simp only [applyServiceBindingListFilter, List.mem_filter, Bool.and_eq_true,
            beq_iff_eq] at hmem
          obtain ⟨⟨_, hbns⟩, hsvc, happ⟩ := hmem
          refine ⟨hsvc, happ, ?_, ?_⟩
          · rw [hbns]; exact List.mem_cons_self ns rest
          · rw [hbns]; simpa using hf
        · obtain ⟨h1, h2, h3, h4⟩ := hprop b hb
          exact ⟨h1, h2, List.mem_cons_of_mem ns h3, h4⟩

theorem listInNs_error_of_failure (env : BindingEnv) (message : ListServiceBindingsMessage) :
    ∀ keys : List String,
    (∃ ns ∈ keys, env.forbiddenNs.contains ns = false ∧ (env.failedNs.lookup ns).isSome = true) →
    ∃ e, listServiceBindingsInNs env message keys = Except.error e := by
  intro keys
  induction keys with
  | nil => rintro ⟨ns, hns, _⟩; exact absurd hns (List.not_mem_nil ns)
  | cons ns rest ih =>
    rintro ⟨x, hx, hxf, hxs⟩
    by_cases hf : env.forbiddenNs.contains ns = true
    · have hf2 : ns ∈ env.forbiddenNs := by simpa using hf
      have hxr : x ∈ rest := by
        rcases List.mem_cons.mp hx with hx1 | hx1
        · subst hx1; rw [hf] at hxf; exact absurd hxf (by simp)
        · exact hx1
      obtain ⟨e, he⟩ := ih ⟨x, hxr, hxf, hxs⟩
      exact ⟨e, by simp [listServiceBindingsInNs, hf2, he]⟩
    · have hf2 : ns ∉ env.forbiddenNs := by simpa using hf
      cases hlk : env.failedNs.lookup ns with
      | some err =>
        exact ⟨RepoErr.wrapped ("failed to list service instances in namespace " ++ ns)
          (FromK8sError err ServiceBindingResourceType),
          by simp [listServiceBindingsInNs, hf2, hlk]⟩
      | none =>
        have hxr : x ∈ rest := by
          rcases List.mem_cons.mp hx with hx1 | hx1
          · subst hx1; rw [hlk] at hxs; exact absurd hxs (by simp)
          · exact hx1
        obtain ⟨e, he⟩ := ih ⟨x, hxr, hxf, hxs⟩
        exact ⟨e, by simp [listServiceBindingsInNs, hf2, hlk, he]⟩

/-- C7: ListServiceBindings iterates exactly the namespaces keyed in the
caller's authorized space map; a forbidden response for one namespace
contributes zero results without failing the call, any other per-namespace
error fails the whole call; each returned record's app GUID and instance
GUID pass the respective membership tests, an empty filter list matching
everything. -/
theorem C7_listServiceBindings (env : BindingEnv) (message : ListServiceBindingsMessage)
    (m : List (String × Bool))
    (hauth : env.authorizedSpaceNs = Except.ok m)
    (hclient : env.buildClientErr = none) :
    ((∀ ns ∈ m.map Prod.fst,
        env.forbiddenNs.contains ns = true ∨ env.failedNs.lookup ns = none) →
      ∃ l, ListServiceBindings env message = Except.ok l ∧
        ∀ r ∈ l, matchesFilter r.ServiceInstanceGUID message.ServiceInstanceGUIDs = true ∧
          matchesFilter r.AppGUID message.AppGUIDs = true ∧
          r.SpaceGUID ∈ m.map Prod.fst ∧
          env.forbiddenNs.contains r.SpaceGUID = false) ∧
    ((∃ ns ∈ m.map Prod.fst,
        env.forbiddenNs.contains ns = false ∧ (env.failedNs.lookup ns).isSome = true) →
      ∃ e, ListServiceBindings env message = Except.error e) ∧
    (∀ v fs, matchesFilter v fs = true ↔ (fs = [] ∨ v ∈ fs)) := by
  refine ⟨?_, ?_, matchesFilter_iff⟩
  · intro h
    obtain ⟨bs, hbs, hprop⟩ := listInNs_ok_of_no_failures env message (m.map Prod.fst) h
    refine ⟨toServiceBindingRecords bs, ?_, ?_⟩
    · simp [ListServiceBindings, hauth, hclient, hbs]
    · intro r hr
      simp only [toServiceBindingRecords, List.mem_map] at hr
      obtain ⟨b, hb, hbr⟩ := hr
      obtain ⟨h1, h2, h3, h4⟩ := hprop b hb
      subst hbr
      exact ⟨h1, h2, h3, h4⟩
  · intro h
    obtain ⟨e, he⟩ := listInNs_error_of_failure env message (m.map Prod.fst) h
    exact ⟨e, by simp [ListServiceBindings, hauth, hclient, he]⟩

def bindingC7 : CFServiceBinding :=
  { name := "b-2", ns := "cf-space-2", bindingName := none,
    serviceName := "inst-2", appName := "app-2", createdAt := "", updatedAt := "" }

def envC7 : BindingEnv :=
  { buildClientErr := none
    authorizedSpaceNs := Except.ok [("cf-space-2", true), ("cf-space-3", false)]
    namespaceForResult := Except.ok ""
    getResult := Except.error K8sErr.notFound
    deleteErr := none
    bindings := [bindingC7]
    forbiddenNs := ["cf-space-3"]
    failedNs := [] }

theorem C7_witness :
    ∃ l, ListServiceBindings envC7 { AppGUIDs := [], ServiceInstanceGUIDs := ["inst-2"] } =
        Except.ok l ∧
      ∀ r ∈ l, r.SpaceGUID ∈ ["cf-space-2", "cf-space-3"] := by
  obtain ⟨l, hl, hprop⟩ :=
    (C7_listServiceBindings envC7 { AppGUIDs := [], ServiceInstanceGUIDs := ["inst-2"] }
      [("cf-space-2", true), ("cf-space-3", false)] rfl rfl).1 (by decide)
  exact ⟨l, hl, fun r hr => by simpa using (hprop r hr).2.2.1⟩

/-! ## ListOrgs / ListSpaces result characterizations -/

theorem orgNameSelector_nil (a : SubnamespaceAnchor) : orgNameSelector [] a = true := by
  simp [orgNameSelector]

/-- The list ListOrgs returns when neither the cluster list call nor the
permission query fails. -/
def listOrgsResult (s : OrgRepoState) (filter : ListOrgsMessage)
    (m : List (String × Bool)) : List OrgRecord :=
  (((s.anchors.filter (fun a => a.ns == s.rootNamespace && orgNameSelector filter.Names a)).filter
    (fun a => a.state == AnchorState.Ok && matchFilter (toMap filter.GUIDs) a.name)).map
      anchorToOrgRecord).filter (fun o => mapValue m o.GUID)

theorem listOrgs_eq (s : OrgRepoState) (filter : ListOrgsMessage) (m : List (String × Bool))
    (hlist : s.listErr = none) (hperms : s.orgPermsResult = Except.ok m) :
    ListOrgs s filter = Except.ok (listOrgsResult s filter m) := by
  simp [ListOrgs, listOrgsResult, hlist, hperms]

theorem mem_listOrgsResult (s : OrgRepoState) (filter : ListOrgsMessage)
    (m : List (String × Bool)) (r : OrgRecord) :
    r ∈ listOrgsResult s filter m ↔
      ∃ a, a ∈ s.anchors ∧ a.ns = s.rootNamespace ∧ orgNameSelector filter.Names a = true ∧
        a.state = AnchorState.Ok ∧ matchFilter (toMap filter.GUIDs) a.name = true ∧
        mapValue m a.name = true ∧ r = anchorToOrgRecord a := by
  simp only [listOrgsResult, List.mem_filter, List.mem_map, Bool.and_eq_true, beq_iff_eq]
  constructor
  · rintro ⟨⟨a, ⟨⟨ha, h1, h2⟩, h3, h4⟩, rfl⟩, h5⟩
    exact ⟨a, ha, h1, h2, h3, h4, by simpa [anchorToOrgRecord] using h5, rfl⟩
  · rintro ⟨a, ha, h1, h2, h3, h4, h5, rfl⟩
    exact ⟨⟨a, ⟨⟨ha, h1, h2⟩, h3, h4⟩, rfl⟩, by simpa [anchorToOrgRecord] using h5⟩

/-- The list the CFOrg-variant ListOrgs returns under the same conditions. -/
def listOrgsCRResult (s : OrgRepoState) (filter : ListOrgsMessage)
    (m : List (String × Bool)) : List OrgRecord :=
  (((s.cfOrgs.filter (fun o => o.ns == s.rootNamespace)).filter (fun o =>
    IsStatusConditionTrue o.conditions "Ready" &&
    matchesFilter o.name filter.GUIDs && matchesFilter o.specName filter.Names)).map
      cfOrgToOrgRecord).filter (fun o => mapValue m o.GUID)

theorem listOrgsCR_eq (s : OrgRepoState) (filter : ListOrgsMessage) (m : List (String × Bool))
    (hlist : s.listErr = none) (hperms : s.orgPermsResult = Except.ok m) :
    ListOrgsCR s filter = Except.ok (listOrgsCRResult s filter m) := by
  simp [ListOrgsCR, listOrgsCRResult, hlist, hperms]

theorem mem_listOrgsCRResult (s : OrgRepoState) (filter : ListOrgsMessage)
    (m : List (String × Bool)) (r : OrgRecord) :
    r ∈ listOrgsCRResult s filter m ↔
      ∃ o, o ∈ s.cfOrgs ∧ o.ns = s.rootNamespace ∧
        IsStatusConditionTrue o.conditions "Ready" = true ∧
        matchesFilter o.name filter.GUIDs = true ∧
        matchesFilter o.specName filter.Names = true ∧
        mapValue m o.name = true ∧ r = cfOrgToOrgRecord o := by
  simp only [listOrgsCRResult, List.mem_filter, List.mem_map, Bool.and_eq_true, beq_iff_eq]
  constructor
  · rintro ⟨⟨o, ⟨⟨ho, h1⟩, ⟨h2, h3⟩, h4⟩, rfl⟩, h5⟩
    exact ⟨o, ho, h1, h2, h3, h4, by simpa [cfOrgToOrgRecord] using h5, rfl⟩
  · rintro ⟨o, ho, h1, h2, h3, h4, h5, rfl⟩
    exact ⟨⟨o, ⟨⟨ho, h1⟩, ⟨h2, h3⟩, h4⟩, rfl⟩, by simpa [cfOrgToOrgRecord] using h5⟩

/-- The list ListSpaces returns under the same conditions. -/
def listSpacesResult (s : OrgRepoState) (message : ListSpacesMessage)
    (m : List (String × Bool)) : List SpaceRecord :=
  ((s.anchors.filter (fun a =>
    a.state == AnchorState.Ok &&
    matchFilter (toMap message.Names) (lookupLabel a SpaceNameLabel) &&
    matchFilter (toMap message.GUIDs) a.name &&
    ((s.anchors.filter (fun b =>
      b.ns == s.rootNamespace && matchFilter (toMap message.OrganizationGUIDs) b.name)).map
        (fun b => b.name)).contains a.ns)).map anchorToSpaceRecord).filter
          (fun r => mapValue m r.GUID)

theorem listSpaces_eq (s : OrgRepoState) (message : ListSpacesMessage) (m : List (String × Bool))
    (hlist : s.listErr = none) (hperms : s.spacePermsResult = Except.ok m) :
    ListSpaces s message = Except.ok (listSpacesResult s message m) := by
  simp [ListSpaces, listSpacesResult, hlist, hperms]

theorem mem_listSpacesResult (s : OrgRepoState) (message : ListSpacesMessage)
    (m : List (String × Bool)) (r : SpaceRecord) :
    r ∈ listSpacesResult s message m ↔
      ∃ a, a ∈ s.anchors ∧ a.state = AnchorState.Ok ∧
        matchFilter (toMap message.Names) (lookupLabel a SpaceNameLabel) = true ∧
        matchFilter (toMap message.GUIDs) a.name = true ∧
        (∃ b, b ∈ s.anchors ∧ b.ns = s.rootNamespace ∧
          matchFilter (toMap message.OrganizationGUIDs) b.name = true ∧ b.name = a.ns) ∧
        mapValue m a.name = true ∧ r = anchorToSpaceRecord a := by
  simp only [listSpacesResult, List.mem_filter, List.mem_map, Bool.and_eq_true, beq_iff_eq,
    List.elem_iff]
  constructor
  · rintro ⟨⟨a, ⟨ha, ⟨⟨h1, h2⟩, h3⟩, h4⟩, rfl⟩, h5⟩
    obtain ⟨b, ⟨hb, hb1, hb2⟩, hb3⟩ := h4
    exact ⟨a, ha, h1, h2, h3, ⟨b, hb, hb1, hb2, hb3⟩,
      by simpa [anchorToSpaceRecord] using h5, rfl⟩
  · rintro ⟨a, ha, h1, h2, h3, ⟨b, hb, hb1, hb2, hb3⟩, h5, rfl⟩
    exact ⟨⟨a, ⟨ha, ⟨⟨h1, h2⟩, h3⟩, ⟨b, ⟨hb, hb1, hb2⟩, hb3⟩⟩, rfl⟩,
      by simpa [anchorToSpaceRecord] using h5⟩

/-! ## C1 -/

/-- C1: GetOrg(orgGUID) returns an OrgRecord exactly when some org-backing
resource named orgGUID under the root namespace has converged (anchor state
Ok — or, in the CFOrg variant, Ready condition true) and orgGUID maps to
true in the caller's authorized org namespace map; in every other
non-transport case GetOrg returns a NotFound error for resource type Org. -/
theorem C1_getOrg_iff_ready_and_authorized (s : OrgRepoState) (orgGUID : String)
    (m : List (String × Bool))
    (hlist : s.listErr = none) (hperms : s.orgPermsResult = Except.ok m) :
    ((∃ r, GetOrg s orgGUID = Except.ok r) ↔
      ((∃ a ∈ s.anchors, a.name = orgGUID ∧ a.ns = s.rootNamespace ∧
          a.state = AnchorState.Ok) ∧ mapValue m orgGUID = true)) ∧
    (¬ ((∃ a ∈ s.anchors, a.name = orgGUID ∧ a.ns = s.rootNamespace ∧
          a.state = AnchorState.Ok) ∧ mapValue m orgGUID = true) →
      GetOrg s orgGUID = Except.error (RepoErr.notFound OrgResourceType)) ∧
    ((∃ r, GetOrgCR s orgGUID = Except.ok r) ↔
      ((∃ o ∈ s.cfOrgs, o.name = orgGUID ∧ o.ns = s.rootNamespace ∧
          IsStatusConditionTrue o.conditions "Ready" = true) ∧ mapValue m orgGUID = true)) ∧
    (¬ ((∃ o ∈ s.cfOrgs, o.name = orgGUID ∧ o.ns = s.rootNamespace ∧
          IsStatusConditionTrue o.conditions "Ready" = true) ∧ mapValue m orgGUID = true) →
      GetOrgCR s orgGUID = Except.error (RepoErr.notFound OrgResourceType)) := by
  have heq := listOrgs_eq s { Names := [], GUIDs := [orgGUID] } m hlist hperms
  have heqCR := listOrgsCR_eq s { Names := [], GUIDs := [orgGUID] } m hlist hperms
  have hchar : ∀ r : OrgRecord, r ∈ listOrgsResult s { Names := [], GUIDs := [orgGUID] } m ↔
      ∃ a, a ∈ s.anchors ∧ a.name = orgGUID ∧ a.ns = s.rootNamespace ∧
        a.state = AnchorState.Ok ∧ mapValue m orgGUID = true ∧ r = anchorToOrgRecord a := by
    intro r
    rw [mem_listOrgsResult]
    constructor
    · rintro ⟨a, ha, h1, _, h3, h4, h5, rfl⟩
      have hag : a.name = orgGUID := (matchFilter_singleton _ _).mp h4
      exact ⟨a, ha, hag, h1, h3, hag ▸ h5, rfl⟩
    · rintro ⟨a, ha, hag, h1, h3, h5, rfl⟩
      exact ⟨a, ha, h1, orgNameSelector_nil a, h3,
        (matchFilter_singleton _ _).mpr hag, hag ▸ h5, rfl⟩
  have hcharCR : ∀ r : OrgRecord, r ∈ listOrgsCRResult s { Names := [], GUIDs := [orgGUID] } m ↔
      ∃ o, o ∈ s.cfOrgs ∧ o.name = orgGUID ∧ o.ns = s.rootNamespace ∧
        IsStatusConditionTrue o.conditions "Ready" = true ∧ mapValue m orgGUID = true ∧
        r = cfOrgToOrgRecord o := by
    intro r
    rw [mem_listOrgsCRResult]
    constructor
    · rintro ⟨o, ho, h1, h2, h3, _, h5, rfl⟩
      have hog : o.name = orgGUID := by
        rcases (matchesFilter_iff _ _).mp h3 with hc | hc
        · exact absurd hc (by simp)
        · simpa using hc
      exact ⟨o, ho, hog, h1, h2, hog ▸ h5, rfl⟩
    · rintro ⟨o, ho, hog, h1, h2, h5, rfl⟩
      exact ⟨o, ho, h1, h2, (matchesFilter_iff _ _).mpr (Or.inr (by simp [hog])),
        (matchesFilter_iff _ _).mpr (Or.inl rfl), hog ▸ h5, rfl⟩
  refine ⟨?_, ?_, ?_, ?_⟩
  · constructor
    · rintro ⟨r, hr⟩
      unfold GetOrg at hr
      rw [heq] at hr
      cases hL : listOrgsResult s { Names := [], GUIDs := [orgGUID] } m with
      | nil => rw [hL] at hr; exact absurd hr (by simp)
      | cons r0 rest =>
        have hr0 : r0 ∈ listOrgsResult s { Names := [], GUIDs := [orgGUID] } m := by
          rw [hL]; exact List.mem_cons_self r0 rest
        obtain ⟨a, ha, hag, h1, h3, h5, _⟩ := (hchar r0).mp hr0
        exact ⟨⟨a, ha, hag, h1, h3⟩, h5⟩
    · rintro ⟨⟨a, ha, hag, h1, h3⟩, h5⟩
      have hmem : anchorToOrgRecord a ∈ listOrgsResult s { Names := [], GUIDs := [orgGUID] } m :=
        (hchar _).mpr ⟨a, ha, hag, h1, h3, h5, rfl⟩
      unfold GetOrg
      rw [heq]
      cases hL : listOrgsResult s { Names := [], GUIDs := [orgGUID] } m with
      | nil => rw [hL] at hmem; exact absurd hmem (List.not_mem_nil _)
      | cons r0 rest => exact ⟨r0, rfl⟩
  · intro hneg
    unfold GetOrg
    rw [heq]
    cases hL : listOrgsResult s { Names := [], GUIDs := [orgGUID] } m with
    | nil => rfl
    | cons r0 rest =>
      exfalso
      have hr0 : r0 ∈ listOrgsResult s { Names := [], GUIDs := [orgGUID] } m := by
        rw [hL]; exact List.mem_cons_self r0 rest
      obtain ⟨a, ha, hag, h1, h3, h5, _⟩ := (hchar r0).mp hr0
      exact hneg ⟨⟨a, ha, hag, h1, h3⟩, h5⟩
  · constructor
    · rintro ⟨r, hr⟩
      unfold GetOrgCR at hr
      rw [heqCR] at hr
      cases hL : listOrgsCRResult s { Names := [], GUIDs := [orgGUID] } m with
      | nil => rw [hL] at hr; exact absurd hr (by simp)
      | cons r0 rest =>
        have hr0 : r0 ∈ listOrgsCRResult s { Names := [], GUIDs := [orgGUID] } m := by
          rw [hL]; exact List.mem_cons_self r0 rest
        obtain ⟨o, ho, hog, h1, h2, h5, _⟩ := (hcharCR r0).mp hr0
        exact ⟨⟨o, ho, hog, h1, h2⟩, h5⟩
    · rintro ⟨⟨o, ho, hog, h1, h2⟩, h5⟩
      have hmem : cfOrgToOrgRecord o ∈ listOrgsCRResult s { Names := [], GUIDs := [orgGUID] } m :=
        (hcharCR _).mpr ⟨o, ho, hog, h1, h2, h5, rfl⟩
      unfold GetOrgCR
      rw [heqCR]
      cases hL : listOrgsCRResult s { Names := [], GUIDs := [orgGUID] } m with
      | nil => rw [hL] at hmem; exact absurd hmem (List.not_mem_nil _)
      | cons r0 rest => exact ⟨r0, rfl⟩
  · intro hneg
    unfold GetOrgCR
    rw [heqCR]
    cases hL : listOrgsCRResult s { Names := [], GUIDs := [orgGUID] } m with
    | nil => rfl
    | cons r0 rest =>
      exfalso
      have hr0 : r0 ∈ listOrgsCRResult s { Names := [], GUIDs := [orgGUID] } m := by
        rw [hL]; exact List.mem_cons_self r0 rest
      obtain ⟨o, ho, hog, h1, h2, h5, _⟩ := (hcharCR r0).mp hr0
      exact hneg ⟨⟨o, ho, hog, h1, h2⟩, h5⟩

def anchorC1 : SubnamespaceAnchor :=
  { name := "cf-org-1", ns := "cf", labels := [(OrgNameLabel, "acme")],
    state := AnchorState.Ok, creationTimestamp := 7 }

def orgC1 : CFOrg :=
  { name := "cf-org-1", ns := "cf", specName := "acme",
    conditions := [("Ready", "True")], creationTimestamp := 7 }

def stateC1 : OrgRepoState :=
  { rootNamespace := "cf"
    timeoutMs := 5000
    anchors := [anchorC1]
    cfOrgs := [orgC1]
    hierarchyConfigs := []
    listErr := none
    orgPermsResult := Except.ok [("cf-org-1", true)]
    spacePermsResult := Except.ok [] }

theorem C1_witness :
    (∃ r, GetOrg stateC1 "cf-org-1" = Except.ok r) ∧
      GetOrg stateC1 "cf-org-2" = Except.error (RepoErr.notFound OrgResourceType) := by
  have h1 := C1_getOrg_iff_ready_and_authorized stateC1 "cf-org-1" [("cf-org-1", true)] rfl rfl
  have h2 := C1_getOrg_iff_ready_and_authorized stateC1 "cf-org-2" [("cf-org-1", true)] rfl rfl
  constructor
  · exact h1.1.mpr ⟨⟨anchorC1, by simp [stateC1], rfl, rfl, rfl⟩, by decide⟩
  · refine h2.2.1 ?_
    rintro ⟨⟨a, ha, hag, -, -⟩, -⟩
    have : a = anchorC1 := by simpa [stateC1] using ha
    subst this
    exact absurd hag (by decide)

/-! ## C2 -/

/-- C2: for every filter and fixed cluster/authorization state, every record
returned by ListOrgs with that filter is also returned by ListOrgs with the
empty filter, and every returned record corresponds to a backing resource
whose state is Ok (Ready condition true in the CFOrg variant); an empty
filter component matches every value and a non-empty one is a membership
test. -/
theorem C2_listOrgs_subset_of_unfiltered (s : OrgRepoState) (F : ListOrgsMessage)
    (m : List (String × Bool)) (L L0 LC L0C : List OrgRecord)
    (hlist : s.listErr = none) (hperms : s.orgPermsResult = Except.ok m)
    (hF : ListOrgs s F = Except.ok L)
    (h0 : ListOrgs s { Names := [], GUIDs := [] } = Except.ok L0)
    (hFC : ListOrgsCR s F = Except.ok LC)
    (h0C : ListOrgsCR s { Names := [], GUIDs := [] } = Except.ok L0C) :
    (∀ r ∈ L, r ∈ L0) ∧
    (∀ r ∈ L, ∃ a ∈ s.anchors, a.name = r.GUID ∧ a.state = AnchorState.Ok) ∧
    (∀ r ∈ LC, r ∈ L0C) ∧
    (∀ r ∈ LC, ∃ o ∈ s.cfOrgs, o.name = r.GUID ∧
      IsStatusConditionTrue o.conditions "Ready" = true) ∧
    (∀ v fs, matchFilter (toMap fs) v = true ↔ (fs = [] ∨ v ∈ fs)) := by
  have hL : L = listOrgsResult s F m := by
    have := listOrgs_eq s F m hlist hperms
    rw [hF] at this
    exact Except.ok.inj this
  have hL0 : L0 = listOrgsResult s { Names := [], GUIDs := [] } m := by
    have := listOrgs_eq s { Names := [], GUIDs := [] } m hlist hperms
    rw [h0] at this
    exact Except.ok.inj this
  have hLC : LC = listOrgsCRResult s F m := by
    have := listOrgsCR_eq s F m hlist hperms
    rw [hFC] at this
    exact Except.ok.inj this
  have hL0C : L0C = listOrgsCRResult s { Names := [], GUIDs := [] } m := by
    have := listOrgsCR_eq s { Names := [], GUIDs := [] } m hlist hperms
    rw [h0C] at this
    exact Except.ok.inj this
  subst hL hL0 hLC hL0C
  refine ⟨?_, ?_, ?_, ?_, fun v fs => matchFilter_iff fs v⟩
  · intro r hr
    obtain ⟨a, ha, h1, _, h3, _, h5, rfl⟩ := (mem_listOrgsResult s F m r).mp hr
    exact (mem_listOrgsResult s _ m _).mpr
      ⟨a, ha, h1, orgNameSelector_nil a, h3, matchFilter_empty a.name, h5, rfl⟩
  · intro r hr
    obtain ⟨a, ha, _, _, h3, _, _, rfl⟩ := (mem_listOrgsResult s F m r).mp hr
    exact ⟨a, ha, by simp [anchorToOrgRecord], h3⟩
  · intro r hr
    obtain ⟨o, ho, h1, h2, _, _, h5, rfl⟩ := (mem_listOrgsCRResult s F m r).mp hr
    exact (mem_listOrgsCRResult s _ m _).mpr
      ⟨o, ho, h1, h2, (matchesFilter_iff _ _).mpr (Or.inl rfl),
        (matchesFilter_iff _ _).mpr (Or.inl rfl), h5, rfl⟩
  · intro r hr
    obtain ⟨o, ho, _, h2, _, _, _, rfl⟩ := (mem_listOrgsCRResult s F m r).mp hr
    exact ⟨o, ho, by simp [cfOrgToOrgRecord], h2⟩

def anchorC2a : SubnamespaceAnchor :=
  { name := "cf-org-a", ns := "cf", labels := [(OrgNameLabel, "alpha")],
    state := AnchorState.Ok, creationTimestamp := 1 }

def anchorC2b : SubnamespaceAnchor :=
  { name := "cf-org-b", ns := "cf", labels := [(OrgNameLabel, "beta")],
    state := AnchorState.Ok, creationTimestamp := 2 }

def stateC2 : OrgRepoState :=
  { rootNamespace := "cf"
    timeoutMs := 5000
    anchors := [anchorC2a, anchorC2b]
    cfOrgs := [{ name := "cf-org-a", ns := "cf", specName := "alpha",
                 conditions := [("Ready", "True")], creationTimestamp := 1 }]
    hierarchyConfigs := []
    listErr := none
    orgPermsResult := Except.ok [("cf-org-a", true), ("cf-org-b", true)]
    spacePermsResult := Except.ok [] }

theorem C2_witness :
    anchorToOrgRecord anchorC2a ∈
      listOrgsResult stateC2 { Names := [], GUIDs := [] }
        [("cf-org-a", true), ("cf-org-b", true)] := by
  exact (C2_listOrgs_subset_of_unfiltered stateC2 { Names := [], GUIDs := ["cf-org-a"] }
    [("cf-org-a", true), ("cf-org-b", true)] _ _ _ _ rfl rfl
    (listOrgs_eq _ _ _ rfl rfl) (listOrgs_eq _ _ _ rfl rfl)
    (listOrgsCR_eq _ _ _ rfl rfl) (listOrgsCR_eq _ _ _ rfl rfl)).1
    (anchorToOrgRecord anchorC2a) (by decide)

/-! ## C3 -/

theorem getOrg_notFound_of_unauthorized (s : OrgRepoState) (orgGUID : String)
    (m : List (String × Bool)) (hlist : s.listErr = none)
    (hperms : s.orgPermsResult = Except.ok m) (hv : mapValue m orgGUID = false) :
    GetOrg s orgGUID = Except.error (RepoErr.notFound OrgResourceType) := by
  have heq := listOrgs_eq s { Names := [], GUIDs := [orgGUID] } m hlist hperms
  unfold GetOrg
  rw [heq]
  cases hL : listOrgsResult s { Names := [], GUIDs := [orgGUID] } m with
  | nil => rfl
  | cons r0 rest =>
    exfalso
    have hr0 : r0 ∈ listOrgsResult s { Names := [], GUIDs := [orgGUID] } m := by
      rw [hL]; exact List.mem_cons_self r0 rest
    obtain ⟨a, -, -, -, -, h4, h5, -⟩ := (mem_listOrgsResult _ _ _ _).mp hr0
    have hag : a.name = orgGUID := (matchFilter_singleton _ _).mp h4
    rw [hag, hv] at h5
    exact Bool.false_ne_true h5

theorem getOrgCR_notFound_of_unauthorized (s : OrgRepoState) (orgGUID : String)
    (m : List (String × Bool)) (hlist : s.listErr = none)
    (hperms : s.orgPermsResult = Except.ok m) (hv : mapValue m orgGUID = false) :
    GetOrgCR s orgGUID = Except.error (RepoErr.notFound OrgResourceType) := by
  have heq := listOrgsCR_eq s { Names := [], GUIDs := [orgGUID] } m hlist hperms
  unfold GetOrgCR
  rw [heq]
  cases hL : listOrgsCRResult s { Names := [], GUIDs := [orgGUID] } m with
  | nil => rfl
  | cons r0 rest =>
    exfalso
    have hr0 : r0 ∈ listOrgsCRResult s { Names := [], GUIDs := [orgGUID] } m := by
      rw [hL]; exact List.mem_cons_self r0 rest
    obtain ⟨o, -, -, -, h4, -, h5, -⟩ := (mem_listOrgsCRResult _ _ _ _).mp hr0
    have hog : o.name = orgGUID := by
      rcases (matchesFilter_iff _ _).mp h4 with hc | hc
      · exact absurd hc (by simp)
      · simpa using hc
    rw [hog, hv] at h5
    exact Bool.false_ne_true h5

/-- C3: for every CreateSpaceMessage whose OrganizationGUID is not mapped to
true in the caller's authorized org set — regardless of whether a converged
org of that name exists for another caller — CreateSpace returns the
parent-organization failure wrapped with "failed to get parent organization"
and issues no cluster write: the anchor-creation step is never reached. -/
theorem C3_createSpace_unauthorized_org (s : OrgRepoState) (env : CreateSpaceEnv)
    (message : CreateSpaceMessage) (uuid : String) (m : List (String × Bool))
    (hlist : s.listErr = none) (hperms : s.orgPermsResult = Except.ok m)
    (hv : mapValue m message.OrganizationGUID = false) :
    CreateSpace s env message uuid =
      (Except.error (RepoErr.wrapped "failed to get parent organization"
        (RepoErr.notFound OrgResourceType)), []) ∧
    CreateSpaceCR s env message uuid =
      (Except.error (RepoErr.wrapped "failed to get parent organization"
        (RepoErr.notFound OrgResourceType)), []) := by
  have h1 := getOrg_notFound_of_unauthorized s message.OrganizationGUID m hlist hperms hv
  have h2 := getOrgCR_notFound_of_unauthorized s message.OrganizationGUID m hlist hperms hv
  exact ⟨by simp [CreateSpace, h1], by simp [CreateSpaceCR, h2]⟩

def anchorC3 : SubnamespaceAnchor :=
  { name := "cf-org-x", ns := "cf", labels := [(OrgNameLabel, "x-corp")],
    state := AnchorState.Ok, creationTimestamp := 3 }

def stateC3 : OrgRepoState :=
  { rootNamespace := "cf"
    timeoutMs := 5000
    anchors := [anchorC3]
    cfOrgs := [{ name := "cf-org-x", ns := "cf", specName := "x-corp",
                 conditions := [("Ready", "True")], creationTimestamp := 3 }]
    hierarchyConfigs := []
    listErr := none
    orgPermsResult := Except.ok [("cf-org-other", true)]
    spacePermsResult := Except.ok [] }

def envC3 : CreateSpaceEnv :=
  { buildClientErr := none
    anchorEnv :=
      { createErr := none, watchSetupErr := none, anchorEvents := [], orgEvents := [],
        orgPermPolls := [], spacePermPolls := [] }
    kpackCreateErr := none
    eiriniCreateErr := none }

theorem C3_witness :
    CreateSpace stateC3 envC3
        { Name := "dev", OrganizationGUID := "cf-org-x", ImageRegistryCredentials := "reg" }
        "u1" =
      (Except.error (RepoErr.wrapped "failed to get parent organization"
        (RepoErr.notFound OrgResourceType)), []) :=
  (C3_createSpace_unauthorized_org stateC3 envC3
    { Name := "dev", OrganizationGUID := "cf-org-x", ImageRegistryCredentials := "reg" }
    "u1" [("cf-org-other", true)] rfl rfl (by decide)).1

/-! ## C5 -/

theorem permissionWait_timeout (name : String) :
    ∀ polls : List (Except RepoErr (List (String × Bool))),
    (∀ p ∈ polls, ∃ mm, p = Except.ok mm ∧ mapHasKey mm name = false) →
    ∀ e, permissionWait name e polls =
      Except.error (RepoErr.permissionTimeout (e + 500 * polls.length)) := by
  intro polls
  induction polls with
  | nil => intro _ e; simp [permissionWait]
  | cons p rest ih =>
    intro h e
    obtain ⟨mm, rfl, hmiss⟩ := h p (List.mem_cons_self p rest)
    have hrec := ih (fun q hq => h q (List.mem_cons_of_mem _ hq)) (e + 500)
    have hstep : permissionWait name e (Except.ok mm :: rest) =
        permissionWait name (e + 500) rest := by
      simp [permissionWait, hmiss]
    rw [hstep, hrec]
    congr 2
    simp only [List.length_cons]
    ring

/-- C5: in the provisioning wait protocol (both provided variants), a
structural-convergence timeout and a permission-propagation timeout produce
two distinct errors — the first reports the timeout period, the second the
elapsed polling time; each is returned fatally, and in neither case does the
issued-request log contain any rollback deletion of the already-created
anchor. -/
theorem C5_timeouts_distinct_no_rollback (s : OrgRepoState) (env : ProvisionEnv)
    (anchor : SubnamespaceAnchor) (resourceType : String) (org : CFOrg)
    (hc : env.createErr = none) (hw : env.watchSetupErr = none) :
    (findOkAnchor env.anchorEvents = none →
      (createSubnamespaceAnchor s env anchor resourceType).1 =
        Except.error (RepoErr.convergenceTimeout s.timeoutMs) ∧
      ∀ act ∈ (createSubnamespaceAnchor s env anchor resourceType).2,
        act.isDelete = false) ∧
    (∀ a, findOkAnchor env.anchorEvents = some a →
      (∀ p ∈ selectedPermPolls env resourceType,
        ∃ mm, p = Except.ok mm ∧ mapHasKey mm anchor.name = false) →
      (createSubnamespaceAnchor s env anchor resourceType).1 =
        Except.error (RepoErr.permissionTimeout
          (500 * (selectedPermPolls env resourceType).length)) ∧
      ∀ act ∈ (createSubnamespaceAnchor s env anchor resourceType).2,
        act.isDelete = false) ∧
    (∀ t1 t2, RepoErr.convergenceTimeout t1 ≠ RepoErr.permissionTimeout t2) ∧
    (findReadyOrg env.orgEvents = none →
      (createOrgCR s env org).1 = Except.error (RepoErr.convergenceTimeout s.timeoutMs) ∧
      ∀ act ∈ (createOrgCR s env org).2, act.isDelete = false) ∧
    (∀ o, findReadyOrg env.orgEvents = some o →
      (∀ p ∈ env.orgPermPolls, ∃ mm, p = Except.ok mm ∧ mapHasKey mm org.name = false) →
      (createOrgCR s env org).1 =
        Except.error (RepoErr.permissionTimeout (500 * env.orgPermPolls.length)) ∧
      ∀ act ∈ (createOrgCR s env org).2, act.isDelete = false) := by
  refine ⟨?_, ?_, ?_, ?_, ?_⟩
  · intro hfind
    constructor
    · simp [createSubnamespaceAnchor, hc, hw, hfind]
    · intro act hact
      simp [createSubnamespaceAnchor, hc, hw, hfind] at hact
      simp [hact, ClusterAction.isDelete]
  · intro a hfind hmiss
    have hwait := permissionWait_timeout anchor.name _ hmiss 0
    rw [Nat.zero_add] at hwait
    constructor
    · simp [createSubnamespaceAnchor, hc, hw, hfind, hwait]
    · intro act hact
      simp [createSubnamespaceAnchor, hc, hw, hfind, hwait] at hact
      simp [hact, ClusterAction.isDelete]
  · intro t1 t2 hcontra
    exact RepoErr.noConfusion hcontra
  · intro hfind
    constructor
    · simp [createOrgCR, hc, hw, hfind]
    · intro act hact
      simp [createOrgCR, hc, hw, hfind] at hact
      simp [hact, ClusterAction.isDelete]
  · intro o hfind hmiss
    have hwait := permissionWait_timeout org.name _ hmiss 0
    rw [Nat.zero_add] at hwait
    constructor
    · simp [createOrgCR, hc, hw, hfind, hwait]
    · intro act hact
      simp [createOrgCR, hc, hw, hfind, hwait] at hact
      simp [hact, ClusterAction.isDelete]

def anchorC5 : SubnamespaceAnchor :=
  { name := "cf-space-w", ns := "cf-org-w", labels := [(SpaceNameLabel, "w")],
    state := AnchorState.Pending, creationTimestamp := 0 }

def orgC5 : CFOrg :=
  { name := "cf-org-w", ns := "cf", specName := "w",
    conditions := [], creationTimestamp := 0 }

def orgC5ready : CFOrg :=
  { name := "cf-org-w", ns := "cf", specName := "w",
    conditions := [("Ready", "True")], creationTimestamp := 0 }

def stateC5 : OrgRepoState :=
  { rootNamespace := "cf"
    timeoutMs := 5000
    anchors := []
    cfOrgs := []
    hierarchyConfigs := []
    listErr := none
    orgPermsResult := Except.ok []
    spacePermsResult := Except.ok [] }

def envC5 : ProvisionEnv :=
  { createErr := none
    watchSetupErr := none
    anchorEvents := [AnchorWatchEvent.otherEvent]
    orgEvents := [OrgWatchEvent.orgEvent orgC5ready]
    orgPermPolls := [Except.ok [("cf-org-other", true)]]
    spacePermPolls := [] }

theorem C5_witness :
    (createSubnamespaceAnchor stateC5 envC5 anchorC5 SpaceResourceType).1 =
        Except.error (RepoErr.convergenceTimeout 5000) ∧
      (createOrgCR stateC5 envC5 orgC5ready).1 =
        Except.error (RepoErr.permissionTimeout 500) := by
  have h := C5_timeouts_distinct_no_rollback stateC5 envC5 anchorC5 SpaceResourceType
    orgC5ready rfl rfl
  constructor
  · exact (h.1 (by decide)).1
  · have hperm := h.2.2.2.2 orgC5ready (by decide) ?_
    · simpa [envC5] using hperm.1
    · intro p hp
      simp only [envC5, List.mem_singleton] at hp
      subst hp
      exact ⟨[("cf-org-other", true)], rfl, by decide⟩

/-! ## C9 -/

/-- C9: the permission-propagation wait accepts as soon as the namespace is
present as a key of the authorized map, even when mapped to false, whereas
ListOrgs and ListSpaces include a record only when the map value for its
GUID is true — so for a map carrying (namespace, false), provisioning
considers permissions established while listing excludes that namespace. -/
theorem C9_key_presence_vs_true_value (m : List (String × Bool)) (name : String)
    (hm : m.lookup name = some false) :
    mapHasKey m name = true ∧
    mapValue m name = false ∧
    (∀ rest, permissionWait name 0 (Except.ok m :: rest) = Except.ok ()) ∧
    (∀ s env anchor resourceType a rest,
      env.createErr = none → env.watchSetupErr = none →
      findOkAnchor env.anchorEvents = some a →
      selectedPermPolls env resourceType = Except.ok m :: rest →
      anchor.name = name →
      (createSubnamespaceAnchor s env anchor resourceType).1 = Except.ok a) ∧
    (∀ s F L, s.listErr = none → s.orgPermsResult = Except.ok m →
      ListOrgs s F = Except.ok L → ∀ r ∈ L, r.GUID ≠ name) ∧
    (∀ s M L, s.listErr = none → s.spacePermsResult = Except.ok m →
      ListSpaces s M = Except.ok L → ∀ r ∈ L, r.GUID ≠ name) := by
  have hkey : mapHasKey m name = true := by simp [mapHasKey, hm]
  have hval : mapValue m name = false := by simp [mapValue, hm]
  refine ⟨hkey, hval, ?_, ?_, ?_, ?_⟩
  · intro rest
    simp [permissionWait, hkey]
  · intro s env anchor resourceType a rest hc hw hfind hpolls hname
    have hwaitok : permissionWait anchor.name 0 (selectedPermPolls env resourceType) =
        Except.ok () := by
      rw [hpolls, hname]
      simp [permissionWait, hkey]
    simp [createSubnamespaceAnchor, hc, hw, hfind, hwaitok]
  · intro s F L hlist hperms hL r hr
    have hLe : L = listOrgsResult s F m := by
      have := listOrgs_eq s F m hlist hperms
      rw [hL] at this
      exact Except.ok.inj this
    subst hLe
    obtain ⟨a, -, -, -, -, -, h5, rfl⟩ := (mem_listOrgsResult s F m r).mp hr
    intro hg
    have hga : a.name = name := by simpa [anchorToOrgRecord] using hg
    rw [hga, hval] at h5
    exact Bool.false_ne_true h5
  · intro s M L hlist hperms hL r hr
    have hLe : L = listSpacesResult s M m := by
      have := listSpaces_eq s M m hlist hperms
      rw [hL] at this
      exact Except.ok.inj this
    subst hLe
    obtain ⟨a, -, -, -, -, -, h5, rfl⟩ := (mem_listSpacesResult s M m r).mp hr
    intro hg
    have hga : a.name = name := by simpa [anchorToSpaceRecord] using hg
    rw [hga, hval] at h5
    exact Bool.false_ne_true h5

theorem C9_witness :
    mapHasKey [("cf-org-z", false)] "cf-org-z" = true ∧
      mapValue [("cf-org-z", false)] "cf-org-z" = false ∧
      permissionWait "cf-org-z" 0 [Except.ok [("cf-org-z", false)]] = Except.ok () := by
  have h := C9_key_presence_vs_true_value [("cf-org-z", false)] "cf-org-z" (by decide)
  exact ⟨h.1, h.2.1, h.2.2.1 []⟩

/-! ## C10 -/

/-- C10: ListSpaces never inspects the convergence state of parent org
anchors — its first pass admits any anchor directly under the root namespace
passing the org-guid filter, whatever its state — so an Ok space anchor
whose parent org anchor has any state (Pending, Missing, Conflict, …) is
returned, provided the space passes the name, guid and caller-authorization
filters. -/
theorem C10_listSpaces_ignores_parent_org_state (s : OrgRepoState)
    (M : ListSpacesMessage) (m : List (String × Bool))
    (spaceA orgA : SubnamespaceAnchor)
    (hlist : s.listErr = none) (hperms : s.spacePermsResult = Except.ok m)
    (hsp : spaceA ∈ s.anchors) (hspState : spaceA.state = AnchorState.Ok)
    (horg : orgA ∈ s.anchors) (horgNs : orgA.ns = s.rootNamespace)
    (hparent : orgA.name = spaceA.ns)
    (hofil : matchFilter (toMap M.OrganizationGUIDs) orgA.name = true)
    (hnfil : matchFilter (toMap M.Names) (lookupLabel spaceA SpaceNameLabel) = true)
    (hgfil : matchFilter (toMap M.GUIDs) spaceA.name = true)
    (hauth : mapValue m spaceA.name = true) :
    ∃ L, ListSpaces s M = Except.ok L ∧ anchorToSpaceRecord spaceA ∈ L := by
  refine ⟨listSpacesResult s M m, listSpaces_eq s M m hlist hperms, ?_⟩
  exact (mem_listSpacesResult s M m _).mpr
    ⟨spaceA, hsp, hspState, hnfil, hgfil, ⟨orgA, horg, horgNs, hofil, hparent⟩, hauth, rfl⟩

def orgAnchorC10 : SubnamespaceAnchor :=
  { name := "cf-org-p", ns := "cf", labels := [(OrgNameLabel, "p-corp")],
    state := AnchorState.Pending, creationTimestamp := 0 }

def spaceAnchorC10 : SubnamespaceAnchor :=
  { name := "cf-space-p", ns := "cf-org-p", labels := [(SpaceNameLabel, "dev")],
    state := AnchorState.Ok, creationTimestamp := 0 }

def stateC10 : OrgRepoState :=
  { rootNamespace := "cf"
    timeoutMs := 0
    anchors := [orgAnchorC10, spaceAnchorC10]
    cfOrgs := []
    hierarchyConfigs := []
    listErr := none
    orgPermsResult := Except.ok []
    spacePermsResult := Except.ok [("cf-space-p", true)] }

theorem C10_witness :
    ∃ L, ListSpaces stateC10
        { Names := [], GUIDs := [], OrganizationGUIDs := [] } = Except.ok L ∧
      anchorToSpaceRecord spaceAnchorC10 ∈ L := by
  exact C10_listSpaces_ignores_parent_org_state stateC10
    { Names := [], GUIDs := [], OrganizationGUIDs := [] } [("cf-space-p", true)]
    spaceAnchorC10 orgAnchorC10 rfl rfl (by simp [stateC10]) rfl
    (by simp [stateC10]) rfl rfl (matchFilter_empty _) (matchFilter_empty _)
    (matchFilter_empty _) (by decide)

/-! ## C8 -/

/-- C8 (amended): GetSpace is List-then-select like GetOrg, scoped by the
space GUID; DeleteOrg is fetch-then-delete — it fetches the hierarchy
configuration first, reports its absence as NotFound and issues no delete in
that case; DeleteSpace, unlike DeleteOrg, performs no fetch of any kind and
deletes the anchor in the org namespace directly under the caller's
identity. -/
theorem C8_get_and_delete_patterns (s : OrgRepoState) (env : DeleteEnv)
    (spaceGUID : String) (dm : DeleteSpaceMessage) (om : DeleteOrgMessage) :
    ((ListSpaces s { Names := [], GUIDs := [spaceGUID], OrganizationGUIDs := [] } =
        Except.ok [] →
      GetSpace s spaceGUID = Except.error (RepoErr.notFound SpaceResourceType)) ∧
     (∀ r rest,
      ListSpaces s { Names := [], GUIDs := [spaceGUID], OrganizationGUIDs := [] } =
        Except.ok (r :: rest) →
      GetSpace s spaceGUID = Except.ok r) ∧
     (∀ e,
      ListSpaces s { Names := [], GUIDs := [spaceGUID], OrganizationGUIDs := [] } =
        Except.error e →
      GetSpace s spaceGUID = Except.error e)) ∧
    (s.hierarchyConfigs.contains om.GUID = false →
      (DeleteOrg s env om).1 = Except.error (RepoErr.notFound OrgResourceType) ∧
      (DeleteOrg s env om).2 = [ClusterAction.getHierarchy om.GUID]) ∧
    (s.hierarchyConfigs.contains om.GUID = true → env.buildClientErr = none →
      (DeleteOrg s env om).2 =
        [ClusterAction.getHierarchy om.GUID,
         ClusterAction.deleteAnchor s.rootNamespace om.GUID]) ∧
    (env.buildClientErr = none →
      (DeleteSpace s env dm).2 =
        [ClusterAction.deleteAnchor dm.OrganizationGUID dm.GUID] ∧
      (∀ g, ClusterAction.getHierarchy g ∉ (DeleteSpace s env dm).2) ∧
      (env.deleteErr = none → (DeleteSpace s env dm).1 = Except.ok ())) := by
  refine ⟨⟨?_, ?_, ?_⟩, ?_, ?_, ?_⟩
  · intro h
    unfold GetSpace
    rw [h]
  · intro r rest h
    unfold GetSpace
    rw [h]
  · intro e h
    unfold GetSpace
    rw [h]
  · intro hc
    have hc2 : om.GUID ∉ s.hierarchyConfigs := by simpa using hc
    exact ⟨by simp [DeleteOrg, hc2, FromK8sError], by simp [DeleteOrg, hc2]⟩
  · intro hc hclient
    have hc2 : om.GUID ∈ s.hierarchyConfigs := by simpa using hc
    cases hdel : env.deleteErr <;> simp [DeleteOrg, hc2, hclient, hdel]
  · intro hclient
    refine ⟨?_, ?_, ?_⟩
    · cases hdel : env.deleteErr <;> simp [DeleteSpace, hclient, hdel]
    · intro g hmem
      cases hdel : env.deleteErr <;> simp [DeleteSpace, hclient, hdel] at hmem
    · intro hdel
      simp [DeleteSpace, hclient, hdel]

def stateC8 : OrgRepoState :=
  { rootNamespace := "cf"
    timeoutMs := 0
    anchors := []
    cfOrgs := []
    hierarchyConfigs := []
    listErr := none
    orgPermsResult := Except.ok []
    spacePermsResult := Except.ok [] }

def envC8 : DeleteEnv := { buildClientErr := none, deleteErr := none }

def msgC8 : DeleteSpaceMessage := { GUID := "cf-space-d", OrganizationGUID := "cf-org-d" }

/-- C8 counterexample: no hierarchy configuration exists for the space — the
case the claim's fetch-then-delete pattern reports as NotFound before any
delete — yet the source DeleteSpace succeeds and issues the delete directly,
with no fetch; it disagrees with the spec-described fetch-then-delete
behaviour at this input. -/
theorem C8_counterexample :
    stateC8.hierarchyConfigs.contains msgC8.GUID = false ∧
    (DeleteSpace stateC8 envC8 msgC8).1 = Except.ok () ∧
    (DeleteSpace stateC8 envC8 msgC8).2 =
      [ClusterAction.deleteAnchor "cf-org-d" "cf-space-d"] ∧
    DeleteSpace stateC8 envC8 msgC8 ≠ DeleteSpaceFetchThenDelete stateC8 envC8 msgC8 ∧
    (DeleteSpaceFetchThenDelete stateC8 envC8 msgC8).1 =
      Except.error (RepoErr.notFound SpaceResourceType) := by
  decide

theorem C8_witness :
    (DeleteSpace stateC8 envC8 msgC8).2 =
      [ClusterAction.deleteAnchor "cf-org-d" "cf-space-d"] := by
  have h := C8_get_and_delete_patterns stateC8 envC8 "cf-space-d" msgC8 { GUID := "o" }
  exact (h.2.2.2 rfl).1

end Korifi
